import Mathlib

/-!
Shallow embedding of the Steez sales system (src/main.py): the sale record
store, the save/list/delete operations, and the yearly dashboard aggregation.
Monetary columns (SQLite REAL) are modelled as exact rationals; the sales
table is a list of stored rows together with the next auto-increment id.
-/

namespace Steez

/-- The request payload of a sale (the pydantic `Sale` model, main.py 72-82). -/
structure Sale where
  supplier : String
  party : String
  date : String
  work_type : String
  completion_percent : ℚ
  quotation_no : String
  po_no : String
  invoice_no : String
  invoice_total : ℚ
  amount_paid : ℚ
deriving DecidableEq

/-- One row of the `sales` table (schema in `init_db`, main.py 32-49). -/
structure StoredSale where
  id : Int
  supplier : String
  party : String
  date : String
  work_type : String
  completion_percent : ℚ
  quotation_no : String
  po_no : String
  invoice_no : String
  invoice_total : ℚ
  amount_paid : ℚ
  outstanding : ℚ
  status : String
  profit : ℚ
deriving DecidableEq

/-- The persistent state: the rows of the `sales` table in insertion order,
plus the next value of the `AUTOINCREMENT` id counter. -/
structure Store where
  nextId : Int
  rows : List StoredSale
deriving DecidableEq

/-- The freshly initialised database (`init_db`): no rows, ids start at 1. -/
def initStore : Store := { nextId := 1, rows := [] }

/-- The JSON body returned by `save_sale` (main.py 158-162). -/
structure SaveResponse where
  outstanding : ℚ
  status : String
  profit : ℚ
deriving DecidableEq

/-- Round to the nearest integer, ties to even — the rounding Python's
built-in `round` performs. -/
def roundHalfEven (q : ℚ) : ℤ :=
  let f := ⌊q⌋
  if q - f < 1 / 2 then f
  else if q - f > 1 / 2 then f + 1
  else if f % 2 = 0 then f else f + 1

/-- Python's `round(x, 2)`: round to two decimal places, ties to even. -/
def pyRound2 (q : ℚ) : ℚ := (roundHalfEven (q * 100) : ℚ) / 100

/-- The derivation of `outstanding` (main.py 111):
`outstanding = sale.invoice_total - sale.amount_paid`. -/
def outstandingOf (sale : Sale) : ℚ := sale.invoice_total - sale.amount_paid

/-- The derivation of `status` (main.py 113-118): `"Paid"` when `outstanding`
is zero, else `"Partial"` when `amount_paid > 0`, else `"Unpaid"`. -/
def statusOf (sale : Sale) : String :=
  if outstandingOf sale = 0 then "Paid"
  else if sale.amount_paid > 0 then "Partial"
  else "Unpaid"

/-- The derivation of `profit` (main.py 120): `profit = sale.amount_paid`. -/
def profitOf (sale : Sale) : ℚ := sale.amount_paid

/-- The row written by the INSERT/UPDATE statements of `save_sale`
(main.py 126-153): all ten input columns plus the three derived columns. -/
def mkRow (i : Int) (sale : Sale) (outstanding : ℚ) (status : String)
    (profit : ℚ) : StoredSale :=
  { id := i
    supplier := sale.supplier
    party := sale.party
    date := sale.date
    work_type := sale.work_type
    completion_percent := sale.completion_percent
    quotation_no := sale.quotation_no
    po_no := sale.po_no
    invoice_no := sale.invoice_no
    invoice_total := sale.invoice_total
    amount_paid := sale.amount_paid
    outstanding := outstanding
    status := status
    profit := profit }

/-- `save_sale` (main.py 109-162): derive `outstanding`, `status`, `profit`
from the payload, then either UPDATE the row whose id equals `sale_id` or
INSERT a new row.  Python chooses the branch with `if sale_id:`, a truthiness
test, so `some 0` takes the INSERT branch exactly like `none`; a missing
`WHERE id` match makes the UPDATE write zero rows.  The response carries the
two monetary derived values rounded to two decimals. -/
def save_sale (s : Store) (sale : Sale) (sale_id : Option Int) :
    Store × SaveResponse :=
  let outstanding := outstandingOf sale
  let status := statusOf sale
  let profit := profitOf sale
  let s' :=
    match sale_id with
    | some i =>
      if i ≠ 0 then
        { s with rows := s.rows.map (fun r =>
            if r.id = i then mkRow r.id sale outstanding status profit else r) }
      else
        { nextId := s.nextId + 1
          rows := s.rows ++ [mkRow s.nextId sale outstanding status profit] }
    | none =>
      { nextId := s.nextId + 1
        rows := s.rows ++ [mkRow s.nextId sale outstanding status profit] }
  (s', { outstanding := pyRound2 outstanding
         status := status
         profit := pyRound2 profit })

/-- POST `/record-sale` (main.py 97-99). -/
def record_sale (s : Store) (sale : Sale) : Store × SaveResponse :=
  save_sale s sale none

/-- PUT `/update-sale/\x7bsale_id\x7d` (main.py 104-106). -/
def update_sale (s : Store) (sale_id : Int) (sale : Sale) :
    Store × SaveResponse :=
  save_sale s sale (some sale_id)

/-- The ordering used by `SELECT * FROM sales ORDER BY id DESC`. -/
def byIdDesc (a b : StoredSale) : Prop := b.id ≤ a.id

instance : DecidableRel byIdDesc := fun a b =>
  inferInstanceAs (Decidable (b.id ≤ a.id))

instance : IsTotal StoredSale byIdDesc := ⟨fun a b => le_total b.id a.id⟩

instance : IsTrans StoredSale byIdDesc := ⟨fun _ _ _ h1 h2 => le_trans h2 h1⟩

/-- GET `/sales` (main.py 165-170): every row, ordered by id descending. -/
def get_sales (s : Store) : List StoredSale :=
  s.rows.insertionSort byIdDesc

/-- DELETE `/delete-sale/\x7bsale_id\x7d` (main.py 173-179): remove every row
matching the id and always answer the same acknowledgement. -/
def delete_sale (s : Store) (sale_id : Int) : Store × String :=
  ({ s with rows := s.rows.filter (fun r => decide (r.id ≠ sale_id)) },
    "deleted")

/-- Modelled from the spec: the date parser used by the dashboard
(pandas `to_datetime` with coercion of failures, main.py 191) is external
library code, not part of this repository.  Following the spec, a date
string parses exactly when it is an ISO-like `YYYY-MM-DD` calendar date;
anything else fails to parse. -/
def parseDate (s : String) : Option (Nat × Nat × Nat) :=
  match s.splitOn "-" with
  | [y, m, d] =>
    match y.toNat?, m.toNat?, d.toNat? with
    | some yn, some mn, some dn =>
      if 1 ≤ mn ∧ mn ≤ 12 ∧ 1 ≤ dn ∧ dn ≤ 31 then some (yn, mn, dn) else none
    | _, _, _ => none
  | _ => none

/-- The year bucket key of a stored row: the calendar year of its parsed
date, or `none` when the date does not parse (pandas `NaT`/`NaN`, excluded
from the `groupby`). -/
def rowYear (r : StoredSale) : Option Nat :=
  (parseDate r.date).map (fun t => t.1)

/-- The rows contributing to the bucket of a given year. -/
def yearBucket (rows : List StoredSale) (y : Nat) : List StoredSale :=
  rows.filter (fun r => decide (rowYear r = some y))

/-- The distinct years present in the table, ascending (pandas `groupby`
sorts its keys and drops the `NaN` key of unparseable dates). -/
def dashboardYears (rows : List StoredSale) : List Nat :=
  ((rows.filterMap rowYear).dedup).insertionSort (fun a b => a ≤ b)

/-- One aggregate row of the yearly dashboard (main.py 194-199). -/
structure YearAgg where
  year : Nat
  invoice_total : ℚ
  amount_paid : ℚ
  outstanding : ℚ
  profit : ℚ
deriving DecidableEq

/-- The sums of the four monetary columns over one year bucket. -/
def aggRow (rows : List StoredSale) (y : Nat) : YearAgg :=
  let b := yearBucket rows y
  { year := y
    invoice_total := (b.map (fun r => r.invoice_total)).sum
    amount_paid := (b.map (fun r => r.amount_paid)).sum
    outstanding := (b.map (fun r => r.outstanding)).sum
    profit := (b.map (fun r => r.profit)).sum }

/-- GET `/dashboard-yearly` (main.py 182-201): group the rows by the
calendar year of their parsed date and sum the four monetary columns per
bucket.  An empty table yields the empty list, matching the `df.empty`
early return. -/
def dashboard (s : Store) : List YearAgg :=
  (dashboardYears s.rows).map (aggRow s.rows)

/-- One client operation against the store. -/
inductive Op where
  | create (sale : Sale)
  | update (sale_id : Int) (sale : Sale)
  | delete (sale_id : Int)

/-- Apply one operation, keeping only the resulting state. -/
def applyOp (s : Store) : Op → Store
  | .create sale => (record_sale s sale).1
  | .update i sale => (update_sale s i sale).1
  | .delete i => (delete_sale s i).1

/-- Apply a sequence of operations starting from the fresh database. -/
def applyOps (ops : List Op) : Store :=
  ops.foldl applyOp initStore

/-- The store after creating the given sales, in order, on a fresh database. -/
def createMany (sales : List Sale) : Store :=
  sales.foldl (fun s sale => (record_sale s sale).1) initStore

/-- A stored row carries correctly derived fields: `outstanding`, `profit`
and `status` are the per-record derivation applied to its own
`invoice_total` and `amount_paid`. -/
def rowDerived (r : StoredSale) : Prop :=
  r.outstanding = r.invoice_total - r.amount_paid ∧
  r.profit = r.amount_paid ∧
  r.status = (if r.invoice_total - r.amount_paid = 0 then "Paid"
              else if r.amount_paid > 0 then "Partial"
              else "Unpaid")

/-- Concrete sale fully paid, dated 2023-01-01 (spec aggregation example). -/
def exA : Sale :=
  ⟨"KONE", "SAB MALTINGS", "2023-01-01", "Lifts", 100, "q1", "p1", "i1",
    100, 100⟩

/-- Concrete sale unpaid, dated 2023-06-01 (spec aggregation example). -/
def exB : Sale :=
  ⟨"KONE", "THE EMERALDS", "2023-06-01", "Quality", 80, "q2", "p2", "i2",
    50, 0⟩

/-- Concrete sale fully paid, dated 2024-01-01 (spec aggregation example). -/
def exC : Sale :=
  ⟨"Walk-In", "THE MELROSE", "2024-01-01", "Fycor", 100, "q3", "p3", "i3",
    200, 200⟩

/-- Concrete overpaid sale: amount paid exceeds the invoice total. -/
def exOver : Sale :=
  ⟨"Other", "LUCID SANDOWN", "2023-02-02", "Lifts", 50, "q4", "p4", "i4",
    100, 150⟩

/-- Concrete sale with a negative payment and nonzero outstanding. -/
def exNeg : Sale :=
  ⟨"Other", "THE MELROSE", "2023-03-03", "Lifts", 10, "q5", "p5", "i5",
    3, -5⟩

/-- Concrete sale whose amount paid has more than two decimal places. -/
def exThird : Sale :=
  ⟨"KONE", "THE EMERALDS", "2023-04-04", "Lifts", 10, "q6", "p6", "i6",
    7, 10 / 3⟩

/-- Concrete sale whose date is not a parseable calendar date. -/
def exBad : Sale :=
  ⟨"KONE", "THE VERGE SHOPPING CENTER", "soon", "Lifts", 10, "q7", "p7",
    "i7", 7, 3⟩

/-- The list of `n` consecutive integers starting at `k` — the ids the
auto-increment counter hands out to `n` consecutive inserts. -/
def idsFrom (k : Int) : Nat → List Int
  | 0 => []
  | n + 1 => k :: idsFrom (k + 1) n

/-- A store holding exactly one row: `exA` created on a fresh database. -/
def oneRowStore : Store := (record_sale initStore exA).1

/-- A store holding exactly one row, whose date does not parse. -/
def badDateStore : Store := (record_sale initStore exBad).1

end Steez

namespace Steez

lemma save_sale_snd (s : Store) (sale : Sale) (sid : Option Int) :
    (save_sale s sale sid).2 =
      ⟨pyRound2 (outstandingOf sale), statusOf sale,
        pyRound2 (profitOf sale)⟩ := by
  cases sid with
  | none => rfl
  | some i => rfl

lemma save_sale_rows_none (s : Store) (sale : Sale) :
    (save_sale s sale none).1.rows =
      s.rows ++ [mkRow s.nextId sale (outstandingOf sale) (statusOf sale)
        (profitOf sale)] := rfl

lemma save_sale_rows_some (s : Store) (sale : Sale) (i : Int) (hi : i ≠ 0) :
    (save_sale s sale (some i)).1.rows =
      s.rows.map (fun r =>
        if r.id = i then
          mkRow r.id sale (outstandingOf sale) (statusOf sale) (profitOf sale)
        else r) := by
  simp [save_sale, hi]

lemma mem_save_sale_rows {s : Store} {sale : Sale} {sid : Option Int}
    {r : StoredSale} (hr : r ∈ (save_sale s sale sid).1.rows) :
    r ∈ s.rows ∨
      ∃ i, r = mkRow i sale (outstandingOf sale) (statusOf sale)
        (profitOf sale) := by
  cases sid with
  | none =>
    rw [save_sale_rows_none] at hr
    rcases List.mem_append.mp hr with h | h
    · exact Or.inl h
    · exact Or.inr ⟨s.nextId, (List.mem_singleton.mp h)⟩
  | some i =>
    by_cases hi : i = 0
    · subst hi
      rcases List.mem_append.mp hr with h | h
      · exact Or.inl h
      · exact Or.inr ⟨s.nextId, (List.mem_singleton.mp h)⟩
    · rw [save_sale_rows_some s sale i hi] at hr
      rcases List.mem_map.mp hr with ⟨x, hx, hfx⟩
      by_cases hxi : x.id = i
      · rw [if_pos hxi] at hfx
        exact Or.inr ⟨x.id, hfx.symm⟩
      · rw [if_neg hxi] at hfx
        exact Or.inl (hfx ▸ hx)

/-- C2: on every create and update, the derived status is `"Paid"` when the
invoice total equals the amount paid, `"Partial"` when they differ and the
amount paid is positive (overpayment included, no clamping), and `"Unpaid"`
when the amount paid is zero and the invoice total is not. -/
theorem status_cases (s : Store) (sid : Option Int) (sale : Sale) :
    (sale.invoice_total = sale.amount_paid →
      (save_sale s sale sid).2.status = "Paid") ∧
    (sale.invoice_total ≠ sale.amount_paid → 0 < sale.amount_paid →
      (save_sale s sale sid).2.status = "Partial") ∧
    (sale.amount_paid = 0 → sale.invoice_total ≠ 0 →
      (save_sale s sale sid).2.status = "Unpaid") := by
  rw [save_sale_snd]
  refine ⟨?_, ?_, ?_⟩
  · intro h
    simp only [statusOf, outstandingOf]
    rw [if_pos (by rw [h, sub_self])]
  · intro hne hpos
    simp only [statusOf, outstandingOf]
    rw [if_neg (sub_ne_zero.mpr hne), if_pos hpos]
  · intro hp hT
    simp only [statusOf, outstandingOf]
    rw [if_neg (by rw [hp, sub_zero]; exact hT),
      if_neg (by rw [hp]; exact lt_irrefl 0)]

/-- Witness for C2 at concrete inputs covering the three branches,
overpayment included. -/
theorem status_cases_witness :
    (save_sale initStore exA none).2.status = "Paid" ∧
    (save_sale initStore exOver none).2.status = "Partial" ∧
    (save_sale initStore exB none).2.status = "Unpaid" :=
  ⟨(status_cases initStore none exA).1 (by with_unfolding_all decide),
   (status_cases initStore none exOver).2.1 (by with_unfolding_all decide)
     (by with_unfolding_all decide),
   (status_cases initStore none exB).2.2 (by with_unfolding_all decide)
     (by with_unfolding_all decide)⟩

/-- C10: whenever the amount paid is negative and the outstanding amount is
nonzero, the `else` branch of the status derivation fires, so every create
and update reports status `"Unpaid"` — not `"Partial"` and not an error. -/
theorem negative_payment_unpaid (s : Store) (sid : Option Int) (sale : Sale)
    (hneg : sale.amount_paid < 0) (hout : outstandingOf sale ≠ 0) :
    (save_sale s sale sid).2.status = "Unpaid" := by
  rw [save_sale_snd]
  simp only [statusOf]
  rw [if_neg hout, if_neg (not_lt.mpr hneg.le)]

/-- Witness for C10: invoice total 3, amount paid -5. -/
theorem negative_payment_unpaid_witness :
    (save_sale initStore exNeg none).2.status = "Unpaid" :=
  negative_payment_unpaid initStore none exNeg (by with_unfolding_all decide)
    (by with_unfolding_all decide)

/-- C4: the per-record derivation of every create and update computes
`outstanding` as exactly `invoice_total - amount_paid` and `profit` as
exactly `amount_paid`, and each row it writes stores those values. -/
theorem derivation_exact (s : Store) (sale : Sale) (sid : Option Int)
    (r : StoredSale) (hr : r ∈ (save_sale s sale sid).1.rows)
    (hnew : r ∉ s.rows) :
    outstandingOf sale = sale.invoice_total - sale.amount_paid ∧
    profitOf sale = sale.amount_paid ∧
    r.outstanding = sale.invoice_total - sale.amount_paid ∧
    r.profit = sale.amount_paid := by
  rcases mem_save_sale_rows hr with h | ⟨i, rfl⟩
  · exact absurd h hnew
  · exact ⟨rfl, rfl, rfl, rfl⟩

/-- Witness for C4: the row created for `exThird` on a fresh store. -/
theorem derivation_exact_witness :
    outstandingOf exThird = exThird.invoice_total - exThird.amount_paid ∧
    profitOf exThird = exThird.amount_paid ∧
    (mkRow 1 exThird (outstandingOf exThird) (statusOf exThird)
      (profitOf exThird)).outstanding =
        exThird.invoice_total - exThird.amount_paid ∧
    (mkRow 1 exThird (outstandingOf exThird) (statusOf exThird)
      (profitOf exThird)).profit = exThird.amount_paid :=
  derivation_exact initStore exThird none
    (mkRow 1 exThird (outstandingOf exThird) (statusOf exThird)
      (profitOf exThird))
    (by with_unfolding_all decide) (by with_unfolding_all decide)

/-- C9: every create and update answers with `outstanding` and `profit`
rounded to two decimal places, while the row it writes stores the
unrounded derived values. -/
theorem response_rounded_store_exact (s : Store) (sale : Sale)
    (sid : Option Int) (r : StoredSale)
    (hr : r ∈ (save_sale s sale sid).1.rows) (hnew : r ∉ s.rows) :
    (save_sale s sale sid).2.outstanding = pyRound2 (outstandingOf sale) ∧
    (save_sale s sale sid).2.profit = pyRound2 (profitOf sale) ∧
    r.outstanding = outstandingOf sale ∧
    r.profit = profitOf sale := by
  rcases mem_save_sale_rows hr with h | ⟨i, rfl⟩
  · exact absurd h hnew
  · rw [save_sale_snd]
    exact ⟨rfl, rfl, rfl, rfl⟩

/-- Witness for C9: creating `exThird` (amount paid 10/3) answers 3.33 in
the payload while the stored row keeps 10/3. -/
theorem response_rounded_store_exact_witness :
    (save_sale initStore exThird none).2.outstanding =
      pyRound2 (outstandingOf exThird) ∧
    (save_sale initStore exThird none).2.profit =
      pyRound2 (profitOf exThird) ∧
    (mkRow 1 exThird (outstandingOf exThird) (statusOf exThird)
      (profitOf exThird)).outstanding = outstandingOf exThird ∧
    (mkRow 1 exThird (outstandingOf exThird) (statusOf exThird)
      (profitOf exThird)).profit = profitOf exThird :=
  response_rounded_store_exact initStore exThird none
    (mkRow 1 exThird (outstandingOf exThird) (statusOf exThird)
      (profitOf exThird))
    (by with_unfolding_all decide) (by with_unfolding_all decide)

/-- Counterexample to C1 as stated: id 0 matches no row of the fresh store,
yet updating id 0 does not leave the record set unchanged — Python's
`if sale_id:` treats 0 as absent and the call runs the INSERT branch,
adding a row. -/
theorem update_zero_inserts :
    (update_sale initStore 0 exA).1.rows ≠ initStore.rows := by
  with_unfolding_all decide

/-- C1 (amended): for every nonzero id that matches no stored row, the
update is a silent no-op — the store is left completely unchanged and the
response is the ordinary derived payload, signalling nothing about the
missing row. -/
theorem update_missing_id_noop (s : Store) (i : Int) (sale : Sale)
    (hi : i ≠ 0) (habs : ∀ r ∈ s.rows, r.id ≠ i) :
    (update_sale s i sale).1 = s ∧
    (update_sale s i sale).2 =
      ⟨pyRound2 (outstandingOf sale), statusOf sale,
        pyRound2 (profitOf sale)⟩ := by
  constructor
  · have hmap : (s.rows.map (fun r =>
        if r.id = i then
          mkRow r.id sale (outstandingOf sale) (statusOf sale)
            (profitOf sale)
        else r)) = s.rows := by
      conv_rhs => rw [← List.map_id s.rows]
      apply List.map_congr_left
      intro r hrm
      rw [if_neg (habs r hrm)]
      rfl
    have hrows : (update_sale s i sale).1.rows = s.rows := by
      rw [update_sale, save_sale_rows_some s sale i hi, hmap]
    have hnext : (update_sale s i sale).1.nextId = s.nextId := by
      simp [update_sale, save_sale, hi]
    cases hupd : (update_sale s i sale).1 with
    | mk n rs =>
      rw [hupd] at hrows hnext
      simp only at hrows hnext
      rw [hrows, hnext]
  · rw [update_sale, save_sale_snd]

/-- Witness for the amended C1: updating id 7 on a store whose only row
has id 1 changes nothing. -/
theorem update_missing_id_noop_witness :
    (update_sale oneRowStore 7 exB).1 = oneRowStore ∧
    (update_sale oneRowStore 7 exB).2 =
      ⟨pyRound2 (outstandingOf exB), statusOf exB,
        pyRound2 (profitOf exB)⟩ :=
  update_missing_id_noop oneRowStore 7 exB (by with_unfolding_all decide)
    (by with_unfolding_all decide)

lemma rowDerived_mkRow (i : Int) (sale : Sale) :
    rowDerived (mkRow i sale (outstandingOf sale) (statusOf sale)
      (profitOf sale)) :=
  ⟨rfl, rfl, rfl⟩

lemma applyOp_preserves_rowDerived (s : Store) (op : Op)
    (h : ∀ r ∈ s.rows, rowDerived r) :
    ∀ r ∈ (applyOp s op).rows, rowDerived r := by
  cases op with
  | create sale =>
    intro r hr
    rcases mem_save_sale_rows hr with hold | ⟨i, rfl⟩
    · exact h r hold
    · exact rowDerived_mkRow i sale
  | update i sale =>
    intro r hr
    rcases mem_save_sale_rows hr with hold | ⟨j, rfl⟩
    · exact h r hold
    · exact rowDerived_mkRow j sale
  | delete i =>
    intro r hr
    exact h r (List.mem_filter.mp hr).1

lemma foldl_applyOp_preserves_rowDerived (ops : List Op) :
    ∀ s : Store, (∀ r ∈ s.rows, rowDerived r) →
      ∀ r ∈ (ops.foldl applyOp s).rows, rowDerived r := by
  induction ops with
  | nil => intro s h; exact h
  | cons op rest ih =>
    intro s h
    rw [List.foldl_cons]
    exact ih (applyOp s op) (applyOp_preserves_rowDerived s op h)

/-- C3: in every store state reachable from the fresh database by any
sequence of create, update and delete operations, every stored row carries
`outstanding = invoice_total - amount_paid`, together with the other two
derived fields, recomputed by the write that produced it. -/
theorem reachable_rows_derived (ops : List Op) (r : StoredSale)
    (hr : r ∈ (applyOps ops).rows) : rowDerived r := by
  refine foldl_applyOp_preserves_rowDerived ops initStore ?_ r hr
  intro x hx
  exact absurd hx (List.not_mem_nil x)

/-- Witness for C3: the row left by a create, an overwriting update and a
delete of a missing id satisfies the derived-field invariant. -/
theorem reachable_rows_derived_witness :
    rowDerived (mkRow 1 exOver (outstandingOf exOver) (statusOf exOver)
      (profitOf exOver)) :=
  reachable_rows_derived
    [Op.create exA, Op.update 1 exOver, Op.delete 5]
    (mkRow 1 exOver (outstandingOf exOver) (statusOf exOver)
      (profitOf exOver))
    (by with_unfolding_all decide)

/-- C6: deleting an id always answers the same acknowledgement, keeps
exactly the rows whose id differs (so a present row is removed, an absent
id changes nothing), is idempotent — a second delete of the same id is
accepted and alters nothing — and the listing after a delete contains no
row with the deleted id. -/
theorem delete_sale_spec (s : Store) (i : Int) :
    (delete_sale s i).2 = "deleted" ∧
    (∀ r, r ∈ (delete_sale s i).1.rows ↔ r ∈ s.rows ∧ r.id ≠ i) ∧
    delete_sale (delete_sale s i).1 i = delete_sale s i ∧
    (∀ r ∈ get_sales (delete_sale s i).1, r.id ≠ i) := by
  refine ⟨rfl, ?_, ?_, ?_⟩
  · intro r
    simp [delete_sale, List.mem_filter]
  · simp [delete_sale, List.filter_filter]
  · intro r hr
    have hmem : r ∈ (delete_sale s i).1.rows := by
      simpa [get_sales] using hr
    simp only [delete_sale, List.mem_filter] at hmem
    simpa using hmem.2

/-- Witness for C6 at a concrete store: delete id 1 from the one-row store,
then check the acknowledgement, idempotence, and that the removed row is
neither stored nor listed. -/
theorem delete_sale_spec_witness :
    (delete_sale oneRowStore 1).2 = "deleted" ∧
    delete_sale (delete_sale oneRowStore 1).1 1 = delete_sale oneRowStore 1 ∧
    ¬ (mkRow 1 exA (outstandingOf exA) (statusOf exA) (profitOf exA) ∈
        (delete_sale oneRowStore 1).1.rows) :=
  ⟨(delete_sale_spec oneRowStore 1).1,
   (delete_sale_spec oneRowStore 1).2.2.1,
   fun hmem =>
     ((delete_sale_spec oneRowStore 1).2.1 _).mp hmem |>.2 rfl⟩

/-- C7: a stored row whose date fails to parse is still returned by the
listing, yet belongs to no year bucket of the dashboard aggregation. -/
theorem bad_date_listed_not_bucketed (s : Store) (r : StoredSale)
    (hr : r ∈ s.rows) (hbad : rowYear r = none) :
    r ∈ get_sales s ∧ ∀ y, r ∉ yearBucket s.rows y := by
  constructor
  · simpa [get_sales] using hr
  · intro y hmem
    have h2 := of_decide_eq_true (List.mem_filter.mp hmem).2
    rw [hbad] at h2
    exact Option.noConfusion h2

/-- Witness for C7: the row created for `exBad` (date `"soon"`) is listed
but lies outside the 2023 bucket. -/
theorem bad_date_listed_not_bucketed_witness :
    (mkRow 1 exBad (outstandingOf exBad) (statusOf exBad) (profitOf exBad) ∈
      get_sales badDateStore) ∧
    (mkRow 1 exBad (outstandingOf exBad) (statusOf exBad) (profitOf exBad) ∉
      yearBucket badDateStore.rows 2023) :=
  ⟨(bad_date_listed_not_bucketed badDateStore _
      (by with_unfolding_all decide) (by with_unfolding_all decide)).1,
   (bad_date_listed_not_bucketed badDateStore _
      (by with_unfolding_all decide) (by with_unfolding_all decide)).2 2023⟩

set_option maxRecDepth 100000 in
/-- C8: creating the three spec-example sales — 2023-01-01 with total 100
paid 100, 2023-06-01 with total 50 paid 0, 2024-01-01 with total 200
paid 200 — yields a dashboard of exactly two buckets: 2023 summing to
invoice_total 150, amount_paid 100, outstanding 50, profit 100, and 2024
summing to invoice_total 200, amount_paid 200, outstanding 0, profit 200. -/
theorem yearly_dashboard_example :
    dashboard (createMany [exA, exB, exC]) =
      [⟨2023, 150, 100, 50, 100⟩, ⟨2024, 200, 200, 0, 200⟩] := by
  with_unfolding_all decide

lemma record_sale_fst_rows (s : Store) (sale : Sale) :
    (record_sale s sale).1.rows =
      s.rows ++ [mkRow s.nextId sale (outstandingOf sale) (statusOf sale)
        (profitOf sale)] := rfl

lemma record_sale_fst_nextId (s : Store) (sale : Sale) :
    (record_sale s sale).1.nextId = s.nextId + 1 := rfl

lemma idsFrom_length (n : Nat) : ∀ k : Int, (idsFrom k n).length = n := by
  induction n with
  | zero => intro k; rfl
  | succ m ih => intro k; simp [idsFrom, ih]

lemma idsFrom_mem (n : Nat) : ∀ k x : Int, x ∈ idsFrom k n →
    k ≤ x ∧ x < k + n := by
  induction n with
  | zero => intro k x hx; exact absurd hx (List.not_mem_nil x)
  | succ m ih =>
    intro k x hx
    rcases List.mem_cons.mp hx with rfl | hx
    · constructor
      · exact le_refl x
      · have : (0 : Int) < (m : Int) + 1 := by positivity
        omega
    · have h := ih (k + 1) x hx
      constructor
      · omega
      · have := h.2
        push_cast
        omega

lemma idsFrom_nodup (n : Nat) : ∀ k : Int, (idsFrom k n).Nodup := by
  induction n with
  | zero => intro k; exact List.nodup_nil
  | succ m ih =>
    intro k
    refine List.nodup_cons.mpr ⟨?_, ih (k + 1)⟩
    intro hmem
    have h := (idsFrom_mem m (k + 1) k hmem).1
    omega

lemma record_fold_ids (sales : List Sale) : ∀ s : Store,
    ((sales.foldl (fun s sale => (record_sale s sale).1) s).rows.map
        (fun r => r.id)) =
      s.rows.map (fun r => r.id) ++ idsFrom s.nextId sales.length := by
  induction sales with
  | nil => intro s; simp [idsFrom]
  | cons sale rest ih =>
    intro s
    rw [List.foldl_cons, ih, record_sale_fst_rows, record_sale_fst_nextId,
      List.map_append, List.append_assoc]
    congr 1

lemma createMany_rows_length (sales : List Sale) :
    (createMany sales).rows.length = sales.length := by
  have h := congrArg List.length (record_fold_ids sales initStore)
  simpa [createMany, initStore, idsFrom_length] using h

lemma createMany_ids_nodup (sales : List Sale) :
    ((createMany sales).rows.map (fun r => r.id)).Nodup := by
  rw [createMany, record_fold_ids sales initStore]
  simpa [initStore] using idsFrom_nodup sales.length 1

/-- C5: listing returns a permutation of the stored rows (every row, no
filtering), sorted by id descending; after creating N sales on a fresh
store the listing holds exactly N rows with strictly descending ids. -/
theorem get_sales_ordered (s : Store) (sales : List Sale) :
    List.Perm (get_sales s) s.rows ∧
    List.Sorted byIdDesc (get_sales s) ∧
    (get_sales (createMany sales)).length = sales.length ∧
    List.Pairwise (fun a b => b.id < a.id) (get_sales (createMany sales)) := by
  refine ⟨List.perm_insertionSort byIdDesc s.rows,
    List.sorted_insertionSort byIdDesc s.rows, ?_, ?_⟩
  · exact (List.perm_insertionSort byIdDesc (createMany sales).rows).length_eq.trans
      (createMany_rows_length sales)
  · have hsorted : List.Sorted byIdDesc (get_sales (createMany sales)) :=
      List.sorted_insertionSort byIdDesc (createMany sales).rows
    have hperm : List.Perm (get_sales (createMany sales))
        (createMany sales).rows :=
      List.perm_insertionSort byIdDesc (createMany sales).rows
    have hnodup : ((get_sales (createMany sales)).map (fun r => r.id)).Nodup :=
      (hperm.map (fun r => r.id)).nodup_iff.mpr (createMany_ids_nodup sales)
    have hne : (get_sales (createMany sales)).Pairwise
        (fun a b => a.id ≠ b.id) := List.pairwise_map.mp hnodup
    exact (hsorted.and hne).imp
      (fun h => lt_of_le_of_ne h.1 (Ne.symm h.2))

/-- Witness for C5: two creates on a fresh store list two rows with
strictly descending ids. -/
theorem get_sales_ordered_witness :
    (get_sales (createMany [exA, exB])).length = 2 ∧
    List.Pairwise (fun a b => b.id < a.id)
      (get_sales (createMany [exA, exB])) :=
  ⟨(get_sales_ordered initStore [exA, exB]).2.2.1,
   (get_sales_ordered initStore [exA, exB]).2.2.2⟩

end Steez
